import Mathlib

/-!
Verification of the supersplat splat-stitching / proximity / navigation core.

Shallow embedding conventions:
* JavaScript numbers are modelled as exact rationals (`ℚ`), idealising IEEE
  floats; "equal up to floating-point tolerance" in the spec becomes exact
  equality over `ℚ`.
* `Math.cos` / `Math.sin` are transcendental, so they are abstracted as an
  oracle (`Trig`): a pair of functions `ℚ → ℚ`.  Theorems that need the
  Pythagorean identity take it as a hypothesis about the oracle at the
  relevant angle; `Math.PI` is likewise passed in as a rational `mathPi`.
* The code compares Euclidean distances `Math.sqrt(dx*dx+dz*dz)` only with
  other distances or with radii.  Since the square root is strictly
  monotone on nonnegatives, every such comparison is equivalent to a
  comparison of squared quantities, which is what the embedding uses:
  `sqrt d < sqrt d' ↔ d < d'` and, for a radius `r`,
  `sqrt d < r ↔ (0 < r ∧ d < r*r)` (both sides false when `r ≤ 0` because a
  square root is nonnegative).  `Infinity` as the initial best distance is
  modelled by starting the fold at the first element (stitching loop) or by
  `Option ℚ` with `none` = `Infinity` (proximity loop).
* React `useState`/`useRef` cells become fields of explicit state records;
  an event handler becomes a function from state to state.
-/

namespace Supersplat

/-! ## Geo-projection (`src/lib/coords.ts`, `src/components/MiniMap.tsx`) -/

/-- Oracle standing in for JavaScript `Math.cos` / `Math.sin`. -/
structure Trig where
  cos : ℚ → ℚ
  sin : ℚ → ℚ

/-- Embedding of `latLngToLocal` from `src/lib/coords.ts`:
convert a lat/lng position to local coordinates relative to a reference
point and heading.  `mathPi` stands for `Math.PI`. -/
def latLngToLocal (T : Trig) (mathPi fromLat fromLng heading toLat toLng scale : ℚ) :
    ℚ × ℚ :=
  let northM := (toLat - fromLat) * 111320
  let eastM := (toLng - fromLng) * 111320 * T.cos (fromLat * mathPi / 180)
  let theta := heading * mathPi / 180
  ((eastM * T.cos theta - northM * T.sin theta) / scale,
   (eastM * T.sin theta + northM * T.cos theta) / scale)

/-- Embedding of `cameraToLatLng` from `src/components/MiniMap.tsx`:
convert camera local (x, z) to lat/lng given heading and scale.
The pair `(lat, lng)` mirrors the returned `[lat, lng]` array. -/
def cameraToLatLng (T : Trig) (mathPi lat lng heading cx cz scale : ℚ) : ℚ × ℚ :=
  let theta := heading * mathPi / 180
  let eastM := (cz * T.sin theta + cx * T.cos theta) * scale
  let northM := (cz * T.cos theta - cx * T.sin theta) * scale
  let dLat := northM / 111320
  let dLng := eastM / (111320 * T.cos (lat * mathPi / 180))
  (lat + dLat, lng + dLng)

/-- A concrete trig oracle (cos ≡ 3/5, sin ≡ 4/5) satisfying the Pythagorean
identity at every angle; used to instantiate witnesses. -/
def demoTrig : Trig := ⟨fun _ => 3/5, fun _ => 4/5⟩

/-! ## Stitching engine (`src/hooks/useSplatStitching.ts`) -/

/-- Squared Euclidean distance in the horizontal plane; the code computes
`Math.sqrt(dx*dx + dz*dz)` but only ever compares it, so the squared form is
an equivalent embedding (square root is strictly monotone on nonnegatives). -/
def dist2 (cx cz x z : ℚ) : ℚ := (cx - x) * (cx - x) + (cz - z) * (cz - z)

/-- `const LOAD_RADIUS = 999` — the hard-coded load radius
("Force-load all splats for calibration"). -/
def LOAD_RADIUS : ℚ := 999

/-- Squared distance from the camera to the offset cached at index `j`
(`offsetsRef.current[j]`); out-of-range indices are never consulted. -/
def distAt (cx cz : ℚ) (l : List (ℚ × ℚ)) (j : ℕ) : ℚ :=
  dist2 cx cz (l.getD j (0, 0)).1 (l.getD j (0, 0)).2

/-- The nearest-world scan loop of `updateCamera`: walk the remaining
offsets (positions `i, i+1, ...`), replacing the best `(index, dist)` pair
exactly when the strict comparison `dist < nearestDist` succeeds. -/
def nearestGo (cx cz : ℚ) : List (ℚ × ℚ) → ℕ → ℕ × ℚ → ℕ × ℚ
  | [], _, acc => acc
  | off :: rest, i, acc =>
    let d := dist2 cx cz off.1 off.2
    if d < acc.2 then nearestGo cx cz rest (i + 1) (i, d)
    else nearestGo cx cz rest (i + 1) acc

/-- `nearestIdx` as computed by `updateCamera`: the loop starts with
`nearestIdx = 0, nearestDist = Infinity`, so on a non-empty list the first
element always becomes the initial best (any finite distance beats
`Infinity`), and on an empty list the loop leaves the initial `0`. -/
def nearestIndex (cx cz : ℚ) : List (ℚ × ℚ) → ℕ
  | [] => 0
  | off :: rest => (nearestGo cx cz rest 1 (0, dist2 cx cz off.1 off.2)).1

/-- State of the stitching hook: the cached `offsetsRef.current`, the
`shouldLoad` index set, and `activeIndex`. -/
structure StitchState where
  offsets : List (ℚ × ℚ)
  shouldLoad : Finset ℕ
  activeIndex : ℕ
deriving DecidableEq

/-- Initial hook state: `useState(new Set([0]))` and `useState(0)`,
with no offsets cached yet (`offsetsRef` starts `[]`). -/
def initialStitchState : StitchState := ⟨[], {0}, 0⟩

/-- `updateCamera`, parameterized by the load radius (the source fixes it to
`LOAD_RADIUS`).  The comparison `dist < radius` of the source is embedded as
`dist2 < radius * radius`, equivalent for the positive radii in play.
The final `setShouldLoad` set-equality debounce returns the previous set
object when the sets are equal; over `Finset` that is the identity, so the
embedding just stores the new set. -/
def updateCameraWith (radius : ℚ) (s : StitchState) (cx cz : ℚ) : StitchState :=
  if s.offsets = [] then s
  else
    let n := nearestIndex cx cz s.offsets
    let toLoad : Finset ℕ :=
      insert 0 (insert n ((Finset.range s.offsets.length).filter
        (fun i => distAt cx cz s.offsets i < radius * radius)))
    { s with activeIndex := n, shouldLoad := toLoad }

/-- The source's `updateCamera`, with its hard-coded radius. -/
def updateCamera : StitchState → ℚ → ℚ → StitchState := updateCameraWith LOAD_RADIUS

/-- "Index of minimum distance, ties broken in favour of the first scene in
registry order", stated directly from the spec's words. -/
def IsFirstMin (cx cz : ℚ) (l : List (ℚ × ℚ)) (i : ℕ) : Prop :=
  i < l.length ∧ (∀ j, j < l.length → distAt cx cz l i ≤ distAt cx cz l j) ∧
    ∀ j, j < i → distAt cx cz l i < distAt cx cz l j

/-- Scenario B fixture: scenes at offsets (0,0), (15,0), (40,0), initial
load set and active index. -/
def scenarioBState : StitchState := ⟨[(0, 0), (15, 0), (40, 0)], {0}, 0⟩

/-! ## Registry load (`useSplatStitching`'s fetch effect) and slots -/

/-- A registry entry as it arrives from the loosely-typed JSON document:
`center` is `Option` because an entry may lack the field entirely
(the TypeScript interface declares it, but nothing validates the JSON). -/
structure RawWorld where
  id : String
  file : String
  center : Option (ℚ × ℚ)
  heading : ℚ
deriving DecidableEq

/-- The `w.map(world => latLngToLocal(origin..., world.center.lat, ...))`
traversal: accessing `world.center.lat` on an entry without `center` throws,
which aborts the whole map — modelled by `none`. -/
def computeOffsetsGo (T : Trig) (mathPi : ℚ) (oc : ℚ × ℚ) (oh : ℚ) :
    List RawWorld → Option (List (ℚ × ℚ))
  | [] => some []
  | w :: rest =>
    match w.center with
    | none => none
    | some c =>
      match computeOffsetsGo T mathPi oc oh rest with
      | none => none
      | some offs =>
        some (latLngToLocal T mathPi oc.1 oc.2 oh c.1 c.2 (5/4) :: offs)

/-- Offset computation over the whole registry, designating `origin`
(`w[0]`) as reference; reading `origin.center.lat` throws as well when the
origin itself lacks a center.  The call site passes no `scale`, so the
default `1.25` applies. -/
def computeOffsets (T : Trig) (mathPi : ℚ) (origin : RawWorld)
    (ws : List RawWorld) : Option (List (ℚ × ℚ)) :=
  match origin.center with
  | none => none
  | some oc => computeOffsetsGo T mathPi oc origin.heading ws

/-- The fetch effect: `fetch("/api/registry").then(...).catch(() => setWorlds([]))`.
`none` models a failed fetch / absent document (also `data.worlds ?? []`
yielding no list).  A throw inside the `.then` callback (a malformed entry)
is caught by the same `.catch`, so the worlds reset to `[]` while
`offsetsRef` keeps its initial `[]`.  The result is the final
`(worlds, offsetsRef.current)` pair. -/
def loadRegistry (T : Trig) (mathPi : ℚ) (fetched : Option (List RawWorld)) :
    List RawWorld × List (ℚ × ℚ) :=
  match fetched with
  | none => ([], [])
  | some ws =>
    match ws with
    | [] => ([], [])
    | origin :: _ =>
      match computeOffsets T mathPi origin ws with
      | some offs => (ws, offs)
      | none => ([], [])

/-- The runtime-visible slot record built per world. -/
structure SplatSlot where
  id : String
  url : String
  offset : ℚ × ℚ × ℚ
  shouldLoad : Bool
deriving DecidableEq

/-- `useState(new Set([0]))` — the load set before any camera update. -/
def initialShouldLoad : Finset ℕ := {0}

/-- The `slots` computation: one slot per world, `url = R2_BASE + "/" + file`,
offset `(x, 0, z)` defaulting to the origin via `offsets[i]?.x ?? 0`, and
`shouldLoad = shouldLoad.has(i)`. -/
def mkSlots (base : String) (worlds : List RawWorld) (offsets : List (ℚ × ℚ))
    (load : Finset ℕ) : List SplatSlot :=
  worlds.enum.map fun p =>
    { id := p.2.id
      url := base ++ "/" ++ p.2.file
      offset := ((offsets.getD p.1 (0, 0)).1, 0, (offsets.getD p.1 (0, 0)).2)
      shouldLoad := decide (p.1 ∈ load) }

/-- `originWorld?.center ?? { lat: 0, lng: 0 }` — the exposed center. -/
def originCenter (worlds : List RawWorld) : ℚ × ℚ :=
  (worlds.head?.bind (fun w => w.center)).getD (0, 0)

/-- `originWorld?.heading ?? 0` — the exposed heading. -/
def originHeading (worlds : List RawWorld) : ℚ :=
  (worlds.head?.map (fun w => w.heading)).getD 0

/-- Well-formed registry fixture. -/
def goodW0 : RawWorld := ⟨"w0", "w0.spz", some (40, -73), 0⟩

/-- Registry entry lacking its geographic `center` field. -/
def badW1 : RawWorld := ⟨"w1", "w1.spz", none, 0⟩

/-- Second well-formed registry fixture. -/
def goodW2 : RawWorld := ⟨"w2", "w2.spz", some (41, -72), 0⟩

/-! ## Proximity engine (`src/components/ProximityMarkers.tsx`) -/

/-- A point-of-interest marker. -/
structure Marker where
  id : String
  position : ℚ × ℚ × ℚ
  triggerRadius : ℚ
deriving DecidableEq

/-- Squared full-3D Euclidean distance (`Vector3.distanceTo`, squared). -/
def dist3sq (p q : ℚ × ℚ × ℚ) : ℚ :=
  (p.1 - q.1) * (p.1 - q.1) + (p.2.1 - q.2.1) * (p.2.1 - q.2.1) +
    (p.2.2 - q.2.2) * (p.2.2 - q.2.2)

/-- `dist < closestDist` with `closestDist` starting at `Infinity`:
`none` models `Infinity` (any finite distance beats it); both sides carry
squared distances. -/
def beatsBest (d : ℚ) : Option ℚ → Prop
  | none => True
  | some b => d < b

instance instDecidableBeatsBest (d : ℚ) : (b : Option ℚ) → Decidable (beatsBest d b)
  | none => .isTrue trivial
  | some b => inferInstanceAs (Decidable (d < b))

/-- The per-frame marker loop: `dist < marker.triggerRadius && dist < closestDist`.
The first conjunct `sqrt d < r` is embedded as `0 < r ∧ d < r*r` (equivalent
over the reals, including nonpositive radii, since a square root is
nonnegative). -/
def proximityGo (p : ℚ × ℚ × ℚ) : List Marker → Option String → Option ℚ → Option String
  | [], closest, _ => closest
  | m :: rest, closest, best =>
    let d := dist3sq p m.position
    if (0 < m.triggerRadius ∧ d < m.triggerRadius * m.triggerRadius) ∧ beatsBest d best then
      proximityGo p rest (some m.id) (some d)
    else proximityGo p rest closest best

/-- One full proximity scan from the camera position `p`. -/
def proximityScan (markers : List Marker) (p : ℚ × ℚ × ℚ) : Option String :=
  proximityGo p markers none none

/-- Interaction state of `ProximityMarkers`: `nearestId` and `expandedId`.
`⟨none, none⟩` = idle, `⟨some m, none⟩` = near m, `expandedId = some m` =
expanded m. -/
structure ProxState where
  nearestId : Option String
  expandedId : Option String
deriving DecidableEq

/-- The `useFrame` body: `if (paused || expandedId) return;` then
`setNearestId(closest)` from a fresh scan. -/
def frameUpdate (markers : List Marker) (paused : Bool) (st : ProxState)
    (p : ℚ × ℚ × ℚ) : ProxState :=
  if paused || st.expandedId.isSome then st
  else { st with nearestId := proximityScan markers p }

/-- `handleExpand` — the explicit user toggle into the expanded state. -/
def handleExpand (st : ProxState) (m : Marker) : ProxState :=
  { st with expandedId := some m.id }

/-- `handleCollapse` — the explicit user dismiss (`setExpandedId(null)`). -/
def handleCollapse (st : ProxState) : ProxState :=
  { st with expandedId := none }

/-- Scenario C fixture: marker at local (2, 0, 3) with trigger radius 3. -/
def scenarioCMarker : Marker := ⟨"poi", (2, 0, 3), 3⟩

/-! ## Navigation controller (`App.tsx` `handleNavigate` + `useStreetNav`) -/

/-- Navigation direction. -/
inductive NavDir where
  | next : NavDir
  | prev : NavDir
deriving DecidableEq

/-- `nav.next`: `setCurrentIndex(i => Math.min(i + 1, worlds.length - 1))`.
Indices are `ℤ` because `worlds.length - 1` is `-1` on an empty registry. -/
def navNext (n : ℕ) (i : ℤ) : ℤ := min (i + 1) ((n : ℤ) - 1)

/-- `nav.prev`: `setCurrentIndex(i => Math.max(i - 1, 0))`. -/
def navPrev (i : ℤ) : ℤ := max (i - 1) 0

/-- Apply a direction's index update. -/
def applyDir (n : ℕ) (i : ℤ) : NavDir → ℤ
  | NavDir.next => navNext n i
  | NavDir.prev => navPrev i

/-- Navigation state: registry size, `currentIndex`, the `transitioningRef`
guard, the occluder's `overlayActive` flag, and the queue of swap callbacks
scheduled by `setTimeout(…, 500)` that have not fired yet. -/
structure NavState where
  numWorlds : ℕ
  currentIndex : ℤ
  transitioning : Bool
  overlayActive : Bool
  pendingSwaps : List NavDir
deriving DecidableEq

/-- `handleNavigate(direction)`: early-return while `transitioningRef` is
set; otherwise set the guard, fade in the occluder and schedule the swap. -/
def handleNavigate (s : NavState) (d : NavDir) : NavState :=
  if s.transitioning then s
  else { s with transitioning := true, overlayActive := true,
                pendingSwaps := s.pendingSwaps ++ [d] }

/-- A scheduled 500 ms timeout firing: pop the oldest pending swap and apply
`nav.next` / `nav.prev` to the index. -/
def fireSwap (s : NavState) : NavState :=
  match s.pendingSwaps with
  | [] => s
  | d :: rest =>
    { s with currentIndex := applyDir s.numWorlds s.currentIndex d,
             pendingSwaps := rest }

/-- `handleLoadingChange(false)` during a transition: fade the occluder out
and clear the guard. -/
def finishLoad (s : NavState) : NavState :=
  if s.transitioning then { s with overlayActive := false, transitioning := false }
  else s

/-- Steady state at the last index of a two-world registry. -/
def navLastState : NavState := ⟨2, 1, false, false, []⟩

/-! ## Theorems -/

/-- Claim C1: converting a target to local coordinates with `latLngToLocal`
and back with `cameraToLatLng`, using the same origin, heading and scale,
returns the original target exactly (over idealised real arithmetic; the
float code realises this up to floating-point error).  The Pythagorean
identity of the trig oracle at the heading angle, a nonzero cosine of the
origin latitude and a nonzero scale are the only requirements — this covers
every heading and every displacement, in particular those below 1 km. -/
theorem latLngToLocal_cameraToLatLng_roundTrip (T : Trig)
    (mathPi fromLat fromLng heading toLat toLng scale : ℚ)
    (hcs : T.cos (heading * mathPi / 180) * T.cos (heading * mathPi / 180) +
      T.sin (heading * mathPi / 180) * T.sin (heading * mathPi / 180) = 1)
    (hk : T.cos (fromLat * mathPi / 180) ≠ 0)
    (hs : scale ≠ 0) :
    cameraToLatLng T mathPi fromLat fromLng heading
      (latLngToLocal T mathPi fromLat fromLng heading toLat toLng scale).1
      (latLngToLocal T mathPi fromLat fromLng heading toLat toLng scale).2
      scale = (toLat, toLng) := by
  simp only [latLngToLocal, cameraToLatLng, Prod.mk.injEq]
  constructor
  · field_simp
    linear_combination (111320 * (toLat - fromLat)) * hcs
  · field_simp
    linear_combination (111320 * (toLng - fromLng) * T.cos (fromLat * mathPi / 180)) * hcs

/-- Concrete instance of the round-trip law: origin (40, -73), heading 90,
target (41, -72), scale 5/4, with the demo trig oracle. -/
theorem latLngToLocal_cameraToLatLng_roundTrip_witness :
    cameraToLatLng demoTrig 3 40 (-73) 90
      (latLngToLocal demoTrig 3 40 (-73) 90 41 (-72) (5/4)).1
      (latLngToLocal demoTrig 3 40 (-73) 90 41 (-72) (5/4)).2
      (5/4) = (41, -72) :=
  latLngToLocal_cameraToLatLng_roundTrip demoTrig 3 40 (-73) 90 41 (-72) (5/4)
    (by norm_num [demoTrig]) (by simp [demoTrig]) (by norm_num)

lemma nearestGo_le (cx cz : ℚ) (l : List (ℚ × ℚ)) :
    ∀ (i : ℕ) (acc : ℕ × ℚ),
      (nearestGo cx cz l i acc).2 ≤ acc.2 ∧
      ∀ j, j < l.length → (nearestGo cx cz l i acc).2 ≤ distAt cx cz l j := by
  induction l with
  | nil =>
    intro i acc
    exact ⟨le_refl _, fun j hj => absurd hj (by simp)⟩
  | cons off rest ih =>
    intro i acc
    by_cases hd : dist2 cx cz off.1 off.2 < acc.2
    · have hrec := ih (i + 1) (i, dist2 cx cz off.1 off.2)
      have hunf : nearestGo cx cz (off :: rest) i acc =
          nearestGo cx cz rest (i + 1) (i, dist2 cx cz off.1 off.2) := by
        simp [nearestGo, hd]
      rw [hunf]
      refine ⟨le_of_lt (lt_of_le_of_lt hrec.1 hd), ?_⟩
      intro j hj
      cases j with
      | zero => simpa [distAt, dist2] using hrec.1
      | succ k =>
        have hk : k < rest.length := by simpa using hj
        simpa [distAt] using hrec.2 k hk
    · have hrec := ih (i + 1) acc
      have hunf : nearestGo cx cz (off :: rest) i acc =
          nearestGo cx cz rest (i + 1) acc := by
        simp [nearestGo, hd]
      rw [hunf]
      refine ⟨hrec.1, ?_⟩
      intro j hj
      cases j with
      | zero =>
        have : acc.2 ≤ dist2 cx cz off.1 off.2 := le_of_not_lt hd
        simpa [distAt, dist2] using le_trans hrec.1 this
      | succ k =>
        have hk : k < rest.length := by simpa using hj
        simpa [distAt] using hrec.2 k hk

lemma nearestGo_first (cx cz : ℚ) (l : List (ℚ × ℚ)) :
    ∀ (i : ℕ) (acc : ℕ × ℚ),
      nearestGo cx cz l i acc = acc ∨
      ∃ j, j < l.length ∧ (nearestGo cx cz l i acc).1 = i + j ∧
        (nearestGo cx cz l i acc).2 = distAt cx cz l j ∧
        (nearestGo cx cz l i acc).2 < acc.2 ∧
        ∀ k, k < j → (nearestGo cx cz l i acc).2 < distAt cx cz l k := by
  induction l with
  | nil => intro i acc; exact Or.inl rfl
  | cons off rest ih =>
    intro i acc
    by_cases hd : dist2 cx cz off.1 off.2 < acc.2
    · have hunf : nearestGo cx cz (off :: rest) i acc =
          nearestGo cx cz rest (i + 1) (i, dist2 cx cz off.1 off.2) := by
        simp [nearestGo, hd]
      rcases ih (i + 1) (i, dist2 cx cz off.1 off.2) with heq | ⟨j, hj, h1, h2, h3, h4⟩
      · refine Or.inr ⟨0, by simp, ?_, ?_, ?_, ?_⟩
        · rw [hunf, heq]; simp
        · rw [hunf, heq]; simp [distAt, dist2]
        · rw [hunf, heq]; exact hd
        · intro k hk; exact absurd hk (Nat.not_lt_zero k)
      · refine Or.inr ⟨j + 1, by simpa using hj, ?_, ?_, ?_, ?_⟩
        · rw [hunf, h1]; ring
        · rw [hunf, h2]; simp [distAt]
        · rw [hunf]; exact lt_trans h3 hd
        · intro k hk
          cases k with
          | zero =>
            rw [hunf]
            simpa [distAt, dist2] using h3
          | succ m =>
            have hm : m < j := by omega
            rw [hunf]
            simpa [distAt] using h4 m hm
    · have hunf : nearestGo cx cz (off :: rest) i acc =
          nearestGo cx cz rest (i + 1) acc := by
        simp [nearestGo, hd]
      rcases ih (i + 1) acc with heq | ⟨j, hj, h1, h2, h3, h4⟩
      · exact Or.inl (by rw [hunf, heq])
      · refine Or.inr ⟨j + 1, by simpa using hj, ?_, ?_, ?_, ?_⟩
        · rw [hunf, h1]; ring
        · rw [hunf, h2]; simp [distAt]
        · rw [hunf]; exact h3
        · intro k hk
          cases k with
          | zero =>
            rw [hunf]
            have : (nearestGo cx cz rest (i + 1) acc).2 < dist2 cx cz off.1 off.2 :=
              lt_of_lt_of_le h3 (le_of_not_lt hd)
            simpa [distAt, dist2] using this
          | succ m =>
            have hm : m < j := by omega
            rw [hunf]
            simpa [distAt] using h4 m hm

lemma nearestIndex_isFirstMin (cx cz : ℚ) (l : List (ℚ × ℚ)) (h : l ≠ []) :
    IsFirstMin cx cz l (nearestIndex cx cz l) := by
  cases l with
  | nil => exact absurd rfl h
  | cons off rest =>
    have hle := nearestGo_le cx cz rest 1 (0, dist2 cx cz off.1 off.2)
    have hd0 : distAt cx cz (off :: rest) 0 = dist2 cx cz off.1 off.2 := by
      simp [distAt]
    have hshift : ∀ m, distAt cx cz (off :: rest) (m + 1) = distAt cx cz rest m := by
      intro m; simp [distAt]
    rcases nearestGo_first cx cz rest 1 (0, dist2 cx cz off.1 off.2) with
      heq | ⟨j, hj, h1, h2, h3, h4⟩
    · have hidx : nearestIndex cx cz (off :: rest) = 0 := by
        simp only [nearestIndex, heq]
      refine ⟨by rw [hidx]; simp, ?_, ?_⟩
      · intro k hk
        rw [hidx, hd0]
        cases k with
        | zero => rw [hd0]
        | succ m =>
          have hm : m < rest.length := by simpa using hk
          have hv := hle.2 m hm
          rw [heq] at hv
          rw [hshift]
          exact hv
      · intro k hk
        rw [hidx] at hk
        exact absurd hk (Nat.not_lt_zero k)
    · have hidx : nearestIndex cx cz (off :: rest) = 1 + j := by
        simp only [nearestIndex]; exact h1
      have hval : distAt cx cz (off :: rest) (nearestIndex cx cz (off :: rest)) =
          (nearestGo cx cz rest 1 (0, dist2 cx cz off.1 off.2)).2 := by
        rw [hidx, Nat.add_comm 1 j, hshift, h2]
      refine ⟨?_, ?_, ?_⟩
      · rw [hidx]; simp only [List.length_cons]; omega
      · intro k hk
        rw [hval]
        cases k with
        | zero =>
          rw [hd0]
          exact le_of_lt (by simpa using h3)
        | succ m =>
          have hm : m < rest.length := by simpa using hk
          rw [hshift]
          exact hle.2 m hm
      · intro k hk
        rw [hval]
        rw [hidx] at hk
        cases k with
        | zero =>
          rw [hd0]
          simpa using h3
        | succ m =>
          have hm : m < j := by omega
          rw [hshift]
          exact h4 m hm

/-- Claim C2: for a non-empty registry, after `updateCamera (x, z)` the load
set contains index 0 and the index of the nearest cached offset, and that
index is the first index of minimum distance (ties broken in favour of the
first scene in registry order). -/
theorem updateCamera_resident_set (s : StitchState) (cx cz : ℚ)
    (h : s.offsets ≠ []) :
    0 ∈ (updateCamera s cx cz).shouldLoad ∧
    nearestIndex cx cz s.offsets ∈ (updateCamera s cx cz).shouldLoad ∧
    (updateCamera s cx cz).activeIndex = nearestIndex cx cz s.offsets ∧
    IsFirstMin cx cz s.offsets (nearestIndex cx cz s.offsets) := by
  have hs : (updateCamera s cx cz) =
      { s with activeIndex := nearestIndex cx cz s.offsets,
               shouldLoad := insert 0 (insert (nearestIndex cx cz s.offsets)
                 ((Finset.range s.offsets.length).filter
                   (fun i => distAt cx cz s.offsets i < LOAD_RADIUS * LOAD_RADIUS))) } := by
    simp [updateCamera, updateCameraWith, h]
  refine ⟨?_, ?_, ?_, nearestIndex_isFirstMin cx cz s.offsets h⟩
  · rw [hs]; simp
  · rw [hs]
    simp [Finset.mem_insert]
  · rw [hs]

/-- Concrete instance of C2: offsets `[(0,0), (3,4)]`, camera at `(3,4)`:
index 0 and the nearest index are both loaded, and the nearest index is the
first minimiser. -/
theorem updateCamera_resident_set_witness :
    0 ∈ (updateCamera ⟨[(0, 0), (3, 4)], {0}, 0⟩ 3 4).shouldLoad ∧
    nearestIndex 3 4 [(0, 0), (3, 4)] ∈
      (updateCamera ⟨[(0, 0), (3, 4)], {0}, 0⟩ 3 4).shouldLoad ∧
    (updateCamera ⟨[(0, 0), (3, 4)], {0}, 0⟩ 3 4).activeIndex =
      nearestIndex 3 4 [(0, 0), (3, 4)] ∧
    IsFirstMin 3 4 [(0, 0), (3, 4)] (nearestIndex 3 4 [(0, 0), (3, 4)]) :=
  updateCamera_resident_set ⟨[(0, 0), (3, 4)], {0}, 0⟩ 3 4 (by simp)

/-- Claim C3 as stated is false on the code: with scenes at offsets
(0,0), (15,0), (40,0) and the camera at (0,0), the code's `updateCamera`
(whose radius is the hard-coded `LOAD_RADIUS = 999`) marks all three scenes
for loading, so the resident set is not `{0,1}`. -/
theorem scenarioB_counterexample :
    (updateCamera scenarioBState 0 0).shouldLoad ≠ ({0, 1} : Finset ℕ) ∧
    (updateCamera scenarioBState 0 0).shouldLoad = ({0, 1, 2} : Finset ℕ) := by
  unfold updateCamera updateCameraWith
  rw [if_neg (by simp [scenarioBState] : ¬(scenarioBState.offsets = []))]
  norm_num [scenarioBState, nearestIndex, nearestGo, dist2, LOAD_RADIUS, distAt,
    Finset.range_succ, Finset.filter_insert, Finset.filter_singleton,
    Finset.filter_empty]
  decide

/-- Claim C3, amended: with those offsets and the camera at (0,0), the
code's `updateCamera` produces resident set `{0,1,2}` (its load radius is
hard-coded to 999, so every scene is within radius) and `nearestIndex = 0`;
running the same loop with a load radius of 10 instead yields `{0}`, not
`{0,1}`, because scene 1 sits at distance 15 > 10 and index 0 is already
both origin and nearest. -/
theorem scenarioB_amended :
    (updateCamera scenarioBState 0 0).shouldLoad = ({0, 1, 2} : Finset ℕ) ∧
    (updateCamera scenarioBState 0 0).activeIndex = 0 ∧
    (updateCameraWith 10 scenarioBState 0 0).shouldLoad = ({0} : Finset ℕ) := by
  unfold updateCamera updateCameraWith
  rw [if_neg (by simp [scenarioBState] : ¬(scenarioBState.offsets = []))]
  norm_num [scenarioBState, nearestIndex, nearestGo, dist2, LOAD_RADIUS, distAt,
    Finset.range_succ, Finset.filter_insert, Finset.filter_singleton,
    Finset.filter_empty]
  decide

/-- Claim C4: a marker becomes near only under strict full-3D distance
comparison.  With the marker at (2,0,3), trigger radius 3, and the camera
stepping (0,0,0) → (2,0,1) → (2,0,6): idle (squared distance 13 ≥ 9), then
near (4 < 9), then idle again (9 < 9 fails — distance exactly 3 is not
strictly inside the radius). -/
theorem scenarioC_proximity_path :
    (frameUpdate [scenarioCMarker] false ⟨none, none⟩ (0, 0, 0)).nearestId = none ∧
    (frameUpdate [scenarioCMarker] false
      (frameUpdate [scenarioCMarker] false ⟨none, none⟩ (0, 0, 0))
      (2, 0, 1)).nearestId = some "poi" ∧
    (frameUpdate [scenarioCMarker] false
      (frameUpdate [scenarioCMarker] false
        (frameUpdate [scenarioCMarker] false ⟨none, none⟩ (0, 0, 0))
        (2, 0, 1))
      (2, 0, 6)).nearestId = none := by
  norm_num [frameUpdate, proximityScan, proximityGo, dist3sq, beatsBest, scenarioCMarker]

/-- Claim C5: while a marker is expanded, per-frame proximity updates are
frozen — any sequence of camera positions leaves the state untouched — a
frame update never changes the expanded marker in any state, and only the
explicit dismiss (`handleCollapse`) clears the expanded state. -/
theorem expanded_freeze (markers : List Marker) (paused : Bool) (st : ProxState)
    (cams : List (ℚ × ℚ × ℚ)) (p : ℚ × ℚ × ℚ)
    (h : st.expandedId.isSome = true) :
    cams.foldl (frameUpdate markers paused) st = st ∧
    (frameUpdate markers paused st p).expandedId = st.expandedId ∧
    (handleCollapse st).expandedId = none := by
  refine ⟨?_, ?_, rfl⟩
  · induction cams with
    | nil => rfl
    | cons c rest ih =>
      have hst : frameUpdate markers paused st c = st := by
        simp [frameUpdate, h]
      simpa [List.foldl_cons, hst] using ih
  · simp only [frameUpdate]
    split
    · rfl
    · rfl

/-- Concrete instance of the expanded-state freeze: state expanded on
"poi", camera jumping to (100, 0, 0), far outside the radius-3 marker. -/
theorem expanded_freeze_witness :
    [((100 : ℚ), (0 : ℚ), (0 : ℚ))].foldl
      (frameUpdate [scenarioCMarker] false) ⟨none, some "poi"⟩ =
      (⟨none, some "poi"⟩ : ProxState) ∧
    (frameUpdate [scenarioCMarker] false ⟨none, some "poi"⟩
      (5, 5, 5)).expandedId = (⟨none, some "poi"⟩ : ProxState).expandedId ∧
    (handleCollapse ⟨none, some "poi"⟩).expandedId = none :=
  expanded_freeze [scenarioCMarker] false ⟨none, some "poi"⟩
    [(100, 0, 0)] (5, 5, 5) rfl

lemma computeOffsetsGo_eq_none (T : Trig) (mathPi : ℚ) (oc : ℚ × ℚ) (oh : ℚ)
    (ws : List RawWorld) (w : RawWorld) (hw : w ∈ ws) (hc : w.center = none) :
    computeOffsetsGo T mathPi oc oh ws = none := by
  induction ws with
  | nil => cases hw
  | cons a rest ih =>
    rcases List.mem_cons.mp hw with rfl | hmem
    · simp [computeOffsetsGo, hc]
    · have hrest := ih hmem
      cases ha : a.center with
      | none => simp [computeOffsetsGo, ha]
      | some c => simp [computeOffsetsGo, ha, hrest]

/-- Claim C6 as stated is false on the code: a registry with a well-formed
scene, a scene lacking `center`, and another well-formed scene does not keep
the two good scenes — the throw inside the fetch callback is caught by the
registry-level `.catch`, which resets the whole registry, so no scene
renders (the slots list is empty). -/
theorem malformedScene_counterexample :
    loadRegistry demoTrig 3 (some [goodW0, badW1, goodW2]) = ([], []) ∧
    mkSlots "" (loadRegistry demoTrig 3 (some [goodW0, badW1, goodW2])).1
      (loadRegistry demoTrig 3 (some [goodW0, badW1, goodW2])).2
      initialShouldLoad = [] :=
  ⟨rfl, rfl⟩

/-- Claim C6, amended: a registry entry lacking `center` makes the whole
registry load degrade to the empty registry — every scene (not only the
malformed one) is dropped, worlds and offsets both become empty.  No
exception escapes (the `.catch` recovers), but the other scenes do not
render either. -/
theorem malformedScene_amended (T : Trig) (mathPi : ℚ) (ws : List RawWorld)
    (h : ∃ w ∈ ws, w.center = none) :
    loadRegistry T mathPi (some ws) = ([], []) := by
  obtain ⟨w, hw, hc⟩ := h
  cases ws with
  | nil => cases hw
  | cons origin rest =>
    cases ho : origin.center with
    | none => simp [loadRegistry, computeOffsets, ho]
    | some oc =>
      have hgo : computeOffsetsGo T mathPi oc origin.heading (origin :: rest) = none :=
        computeOffsetsGo_eq_none T mathPi oc origin.heading (origin :: rest) w hw hc
      simp [loadRegistry, computeOffsets, ho, hgo]

/-- Concrete instance of the amended C6: one good scene plus one scene
without a center degrade to the empty registry. -/
theorem malformedScene_amended_witness :
    loadRegistry demoTrig 3 (some [goodW0, badW1]) = ([], []) :=
  malformedScene_amended demoTrig 3 [goodW0, badW1] ⟨badW1, by simp, rfl⟩

/-- Claim C7: a failed or absent registry fetch degrades to the empty
registry: worlds and offsets empty, no slots, initial active index 0,
exposed center (0,0) and heading 0, and a camera update on the empty offset
list is a no-op (so the nearest index stays at its default 0).  All paths
are total — no exception propagates. -/
theorem emptyRegistry_degrades (T : Trig) (mathPi : ℚ) (base : String)
    (sl : Finset ℕ) (a : ℕ) (cx cz : ℚ) :
    loadRegistry T mathPi none = ([], []) ∧
    mkSlots base [] [] initialShouldLoad = [] ∧
    initialStitchState.activeIndex = 0 ∧
    originCenter [] = (0, 0) ∧
    originHeading [] = 0 ∧
    updateCamera ⟨[], sl, a⟩ cx cz = ⟨[], sl, a⟩ :=
  ⟨rfl, rfl, rfl, rfl, rfl, by simp [updateCamera, updateCameraWith]⟩

/-- Claim C8: the `transitioningRef` guard makes a second `advance` during
an in-flight transition a no-op — the state after two back-to-back calls
equals the state after one, and once the single scheduled swap fires the
index reflects exactly one advancement, with no further swap pending. -/
theorem advance_twice_single_advancement (s : NavState) (d d' : NavDir)
    (h1 : s.transitioning = false) (h2 : s.pendingSwaps = []) :
    handleNavigate (handleNavigate s d) d' = handleNavigate s d ∧
    (fireSwap (handleNavigate (handleNavigate s d) d')).currentIndex =
      applyDir s.numWorlds s.currentIndex d ∧
    (fireSwap (handleNavigate (handleNavigate s d) d')).pendingSwaps = [] := by
  have hfirst : handleNavigate s d =
      { s with transitioning := true, overlayActive := true,
               pendingSwaps := s.pendingSwaps ++ [d] } := by
    simp [handleNavigate, h1]
  have hsecond : handleNavigate (handleNavigate s d) d' = handleNavigate s d := by
    rw [hfirst]
    simp [handleNavigate]
  refine ⟨hsecond, ?_, ?_⟩ <;>
    rw [hsecond, hfirst] <;> simp [fireSwap, h2]

/-- Concrete instance of the C8 concurrency guard: three worlds, steady at
index 0, two rapid `advance(next)` calls. -/
theorem advance_twice_single_advancement_witness :
    handleNavigate (handleNavigate ⟨3, 0, false, false, []⟩ NavDir.next) NavDir.next =
      handleNavigate ⟨3, 0, false, false, []⟩ NavDir.next ∧
    (fireSwap (handleNavigate (handleNavigate ⟨3, 0, false, false, []⟩ NavDir.next)
      NavDir.next)).currentIndex = applyDir 3 0 NavDir.next ∧
    (fireSwap (handleNavigate (handleNavigate ⟨3, 0, false, false, []⟩ NavDir.next)
      NavDir.next)).pendingSwaps = [] :=
  advance_twice_single_advancement ⟨3, 0, false, false, []⟩ NavDir.next NavDir.next
    rfl rfl

/-- Claim C9 as stated is false on the code: `handleNavigate` performs no
validity check, so `advance(next)` in the steady state at the last index of
a two-world registry is not a no-op — the transition starts (guard set,
occluder fading in) even though the index, once the swap fires, is merely
clamped back to its old value. -/
theorem advance_invalid_counterexample :
    handleNavigate navLastState NavDir.next ≠ navLastState ∧
    (handleNavigate navLastState NavDir.next).transitioning = true ∧
    (handleNavigate navLastState NavDir.next).overlayActive = true ∧
    (fireSwap (handleNavigate navLastState NavDir.next)).currentIndex =
      navLastState.currentIndex := by
  refine ⟨?_, rfl, rfl, ?_⟩
  · intro hcontra
    have := congrArg NavState.transitioning hcontra
    simp [handleNavigate, navLastState] at this
  · norm_num [handleNavigate, navLastState, fireSwap, applyDir, navNext]

/-- Claim C9, amended: in the steady state, `advance` with an invalid
direction (`next` at the last index, `prev` at index 0) leaves the current
index unchanged — the swap callback clamps it — but it is *not* a no-op:
the transition still starts (the `transitioning` guard is set and the
occluder fade-in is triggered).  Invalid directions are instead prevented
upstream, by the UI disabling the buttons via `hasNext` / `hasPrev`. -/
theorem advance_invalid_amended (s : NavState) (d : NavDir)
    (h1 : s.transitioning = false) (h2 : s.pendingSwaps = [])
    (hinv : (d = NavDir.next ∧ s.currentIndex = (s.numWorlds : ℤ) - 1) ∨
      (d = NavDir.prev ∧ s.currentIndex = 0)) :
    (fireSwap (handleNavigate s d)).currentIndex = s.currentIndex ∧
    (handleNavigate s d).transitioning = true ∧
    (handleNavigate s d).overlayActive = true := by
  have hfirst : handleNavigate s d =
      { s with transitioning := true, overlayActive := true,
               pendingSwaps := s.pendingSwaps ++ [d] } := by
    simp [handleNavigate, h1]
  refine ⟨?_, by rw [hfirst], by rw [hfirst]⟩
  rw [hfirst]
  rcases hinv with ⟨rfl, hi⟩ | ⟨rfl, hi⟩
  · simp only [fireSwap, h2, List.nil_append, applyDir, navNext, hi]
    omega
  · simp only [fireSwap, h2, List.nil_append, applyDir, navPrev, hi]
    omega

/-- Concrete instance of the amended C9: two worlds, steady at the last
index 1, `advance(next)`. -/
theorem advance_invalid_amended_witness :
    (fireSwap (handleNavigate ⟨2, 1, false, false, []⟩ NavDir.next)).currentIndex =
      (⟨2, 1, false, false, []⟩ : NavState).currentIndex ∧
    (handleNavigate ⟨2, 1, false, false, []⟩ NavDir.next).transitioning = true ∧
    (handleNavigate ⟨2, 1, false, false, []⟩ NavDir.next).overlayActive = true :=
  advance_invalid_amended ⟨2, 1, false, false, []⟩ NavDir.next rfl rfl
    (Or.inl ⟨rfl, by norm_num⟩)

/-- Claim C10: after the registry loads and before any camera update, the
slots built from the initial load set `{0}` mark exactly the origin slot
for loading: slot `i` has `shouldLoad = true` iff `i = 0`. -/
theorem initial_slots_load_only_origin (base : String) (worlds : List RawWorld)
    (offsets : List (ℚ × ℚ)) (i : ℕ)
    (h : i < (mkSlots base worlds offsets initialShouldLoad).length) :
    ((mkSlots base worlds offsets initialShouldLoad).get ⟨i, h⟩).shouldLoad =
      decide (i = 0) := by
  simp [mkSlots, initialShouldLoad]

/-- Concrete instance of C10: a two-world registry; slot 1 is not loaded
initially (and by the same theorem slot 0 is). -/
theorem initial_slots_load_only_origin_witness :
    ((mkSlots "" [goodW0, goodW2] [] initialShouldLoad).get
      ⟨1, by simp [mkSlots]⟩).shouldLoad = decide ((1 : ℕ) = 0) :=
  initial_slots_load_only_origin "" [goodW0, goodW2] [] 1 (by simp [mkSlots])

end Supersplat
